import Mathlib

/-!
Shallow embedding of the generated Rust adapter template
`src/utils/rust/main.rs` of this repository.

The template reads one JSON request from stdin, validates the
`function_name` against the single statically-configured target
function, decodes `params` into a generated `Params` struct via serde,
calls the target function with the decoded fields in declared order, and
prints one JSON `Response` line to stdout.

JSON values are modelled by the inductive `Json`; the generation-time
argument types (produced by the `java_to_rust_type` filter) are modelled
by `RType` and their runtime values by `RVal`.  serde's derived
`Deserialize` semantics are modelled faithfully: a struct decodes only
from a JSON object, a declared field that is absent is an error, a
declared field whose value does not have the declared type is an error
(no coercion, no defaults), a known field occurring twice is an error,
and unknown fields are ignored (the template does not use
`deny_unknown_fields`).

The process-level behaviour of `fn main` (exit code, stdout lines,
stderr diagnostic) is captured by `ProcResult`; the `?` operator on a
`Result`-returning `main` produces exit code 1 with the error message on
stderr and nothing on stdout.
-/

/-- JSON values, as in `serde_json::Value` (numbers restricted to
integers, which suffices for the claims considered). -/
inductive Json where
  | null : Json
  | bool : Bool → Json
  | num : Int → Json
  | str : String → Json
  | arr : List Json → Json
  | obj : List (String × Json) → Json
deriving Repr

/-- Argument types available to the template at generation time
(the image of the `java_to_rust_type` filter): integers, strings,
booleans, and vectors thereof. -/
inductive RType where
  | int : RType
  | str : RType
  | bool : RType
  | list : RType → RType
deriving Repr, DecidableEq

/-- Runtime values of the types in `RType`: the decoded fields of the
generated `Params` struct, and return values of the target function. -/
inductive RVal where
  | int : Int → RVal
  | str : String → RVal
  | bool : Bool → RVal
  | list : List RVal → RVal
deriving Repr

/-- serde decoding of a single value at a declared type.  There is no
coercion: a JSON value of the wrong shape yields `none`. -/
def decodeVal : RType → Json → Option RVal
  | RType.int => fun j =>
      match j with
      | Json.num n => some (RVal.int n)
      | _ => none
  | RType.str => fun j =>
      match j with
      | Json.str s => some (RVal.str s)
      | _ => none
  | RType.bool => fun j =>
      match j with
      | Json.bool b => some (RVal.bool b)
      | _ => none
  | RType.list t => fun j =>
      match j with
      | Json.arr xs => Option.map RVal.list (List.mapM (decodeVal t) xs)
      | _ => none

/-- First binding of a key in a JSON object's field list, as serde's
map visitor sees it. -/
def lookupField (fs : List (String × Json)) (n : String) : Option Json :=
  match fs with
  | [] => none
  | (k, v) :: rest => if k = n then some v else lookupField rest n

/-- Number of occurrences of a key in a JSON object's field list; serde
rejects a known field that occurs more than once. -/
def countKey (fs : List (String × Json)) (n : String) : Nat :=
  (fs.filter (fun p => p.1 = n)).length

/-- Decode the declared fields of the generated `Params` struct, in
declared order, from an object's field list.  A missing declared field
or a type-mismatched value is an error; unknown fields are ignored. -/
def decodeFields : List (String × RType) → List (String × Json) → Except String (List RVal)
  | [], _ => Except.ok []
  | (n, t) :: rest, fs =>
      match lookupField fs n with
      | none => Except.error ("missing field " ++ n)
      | some v =>
          match decodeVal t v with
          | none => Except.error ("invalid type for field " ++ n)
          | some rv =>
              match decodeFields rest fs with
              | Except.error e => Except.error e
              | Except.ok rvs => Except.ok (rv :: rvs)

/-- Embedding of `serde_json::from_value::<Params>(request.params)` for
a `Params` struct generated from the declared argument list `decl`.
Decoding fails on a non-object, on a duplicated known field, on a
missing declared field, and on a type-mismatched value; unknown fields
are ignored.  The resulting values are listed in declared order, which
is the order the call site `rust::f(params.a, params.b, ...)` uses. -/
def decodeParams (decl : List (String × RType)) (j : Json) : Except String (List RVal) :=
  match j with
  | Json.obj fs =>
      if decl.any (fun d => 1 < countKey fs d.1) then
        Except.error "duplicate field"
      else
        decodeFields decl fs
  | _ => Except.error "invalid type: expected struct Params"

/-- The request envelope, as the Rust `struct Request`: a function name
and a still-undecoded `params` value (`serde_json::Value`). -/
structure Request where
  function_name : String
  params : Json
deriving Repr

/-- Embedding of `serde_json::from_str::<Request>` applied to an input
that is valid JSON: the document must be an object carrying a string
`function_name` and an arbitrary `params` value; unknown top-level
fields are ignored, duplicated known fields are rejected. -/
def decodeRequest (j : Json) : Except String Request :=
  match j with
  | Json.obj fs =>
      if 1 < countKey fs "function_name" ∨ 1 < countKey fs "params" then
        Except.error "duplicate field"
      else
        match lookupField fs "function_name" with
        | none => Except.error "missing field function_name"
        | some v =>
            match v with
            | Json.str s =>
                match lookupField fs "params" with
                | none => Except.error "missing field params"
                | some p => Except.ok { function_name := s, params := p }
            | _ => Except.error "invalid type for field function_name"
  | _ => Except.error "invalid type: expected struct Request"

/-- The response document, as the Rust `struct Response`. -/
structure Response where
  status : String
  data : Option RVal
  error_message : Option String
deriving Repr

/-- Observable outcome of one process invocation: the exit code, the
`Response` documents printed to stdout (each `println!` prints one
line), and the diagnostic printed to stderr when `main` returns `Err`. -/
structure ProcResult where
  exitCode : Nat
  stdout : List Response
  stderr : Option String
deriving Repr

/-- One generated adapter instance: the generation-time parameters of
the template — the target function's name, its declared argument list
(names and types, in positional order), and the target function itself
(`rust::{{ function_name }}`), taking its arguments as a list in
declared order. -/
structure Adapter where
  function_name : String
  arguments : List (String × RType)
  target : List RVal → RVal

/-- The stdin contents as the program observes them: the bytes are not
valid UTF-8 (so `read_to_string` fails), or they are text that is not
valid JSON (so `serde_json::from_str` fails before any field is seen),
or they parse to a JSON document. -/
inductive Input where
  | notUtf8 : Input
  | notJson : Input
  | json : Json → Input

/-- Embedding of `fn main` of the generated adapter.  Each `?` on an
`Err` makes `main` return that error: the process prints the message to
stderr, prints nothing to stdout, and exits with code 1.  The two
`println!` sites each print exactly one serialized `Response` and `main`
then returns `Ok(())`: exit code 0. -/
def adapterMain (A : Adapter) (inp : Input) : ProcResult :=
  match inp with
  | Input.notUtf8 =>
      { exitCode := 1, stdout := [], stderr := some "stream did not contain valid UTF-8" }
  | Input.notJson =>
      { exitCode := 1, stdout := [],
        stderr := some "Failed to parse JSON request: invalid JSON" }
  | Input.json j =>
      match decodeRequest j with
      | Except.error e =>
          { exitCode := 1, stdout := [],
            stderr := some ("Failed to parse JSON request: " ++ e) }
      | Except.ok request =>
          if request.function_name ≠ A.function_name then
            { exitCode := 0,
              stdout := [{ status := "error", data := none,
                           error_message := some "Unsupported function" }],
              stderr := none }
          else
            match decodeParams A.arguments request.params with
            | Except.error e =>
                { exitCode := 1, stdout := [],
                  stderr := some ("Failed to parse parameters: " ++ e) }
            | Except.ok args =>
                { exitCode := 0,
                  stdout := [{ status := "success", data := some (A.target args),
                               error_message := none }],
                  stderr := none }

/-- A concrete generated instance, following the hash example of the
repository: target name `hash`, arguments `seed : int` and
`input : Vec<int>`, and a simple deterministic target function standing
in for the external `rust::hash`. -/
def hashAdapter : Adapter where
  function_name := "hash"
  arguments := [("seed", RType.int), ("input", RType.list RType.int)]
  target := fun args =>
    match args with
    | [RVal.int s, RVal.list xs] => RVal.int (s + xs.length)
    | _ => RVal.int 0

/-- Field lookup on an arbitrary JSON value: the binding in an object,
`none` on any non-object. -/
def jsonLookup (j : Json) (n : String) : Option Json :=
  match j with
  | Json.obj fs => lookupField fs n
  | _ => none

theorem lookupField_append_of_ne (fs : List (String × Json)) (n m : String) (v : Json)
    (h : m ≠ n) : lookupField (fs ++ [(n, v)]) m = lookupField fs m := by
  induction fs with
  | nil =>
      simp only [List.nil_append, lookupField]
      rw [if_neg (fun hh => h hh.symm)]
  | cons p rest ih =>
      simp only [List.cons_append, lookupField]
      split
      · rfl
      · exact ih

theorem countKey_append_of_ne (fs : List (String × Json)) (n m : String) (v : Json)
    (h : m ≠ n) : countKey (fs ++ [(n, v)]) m = countKey fs m := by
  unfold countKey
  rw [List.filter_append]
  have hd : decide (n = m) = false := decide_eq_false (fun hh => h hh.symm)
  have : List.filter (fun p => decide (p.1 = m)) [(n, v)] = [] := by
    simp [List.filter, hd]
  rw [this, List.append_nil]

theorem decodeFields_congrOn (decl : List (String × RType)) (fs1 fs2 : List (String × Json))
    (h : ∀ m t, (m, t) ∈ decl → lookupField fs1 m = lookupField fs2 m) :
    decodeFields decl fs1 = decodeFields decl fs2 := by
  induction decl with
  | nil => rfl
  | cons d rest ih =>
      obtain ⟨m, t⟩ := d
      have hrest := ih (fun m' t' hm => h m' t' (List.mem_cons_of_mem _ hm))
      simp only [decodeFields, h m t (List.mem_cons_self _ _), hrest]

theorem any_countKey_congrOn (decl : List (String × RType)) (fs1 fs2 : List (String × Json))
    (h : ∀ d ∈ decl, countKey fs1 d.1 = countKey fs2 d.1) :
    (decl.any fun d => 1 < countKey fs1 d.1) = (decl.any fun d => 1 < countKey fs2 d.1) := by
  induction decl with
  | nil => rfl
  | cons d rest ih =>
      simp only [List.any_cons]
      rw [h d (List.mem_cons_self _ _), ih (fun d' hd => h d' (List.mem_cons_of_mem _ hd))]

theorem decodeParams_congrOn (decl : List (String × RType)) (fs1 fs2 : List (String × Json))
    (hcnt : ∀ d ∈ decl, countKey fs1 d.1 = countKey fs2 d.1)
    (hlk : ∀ m t, (m, t) ∈ decl → lookupField fs1 m = lookupField fs2 m) :
    decodeParams decl (Json.obj fs1) = decodeParams decl (Json.obj fs2) := by
  simp only [decodeParams]
  rw [any_countKey_congrOn decl fs1 fs2 hcnt]
  split
  · rfl
  · exact decodeFields_congrOn decl fs1 fs2 hlk

theorem lookupField_perm (n : String) {fs1 fs2 : List (String × Json)}
    (h : fs1.Perm fs2) (hnd : (fs1.map Prod.fst).Nodup) :
    lookupField fs1 n = lookupField fs2 n := by
  induction h with
  | nil => rfl
  | cons x h ih =>
      simp only [List.map_cons, List.nodup_cons] at hnd
      simp only [lookupField]
      split
      · rfl
      · exact ih hnd.2
  | swap x y l =>
      simp only [List.map_cons, List.nodup_cons, List.mem_cons] at hnd
      have hxy : y.1 ≠ x.1 := fun hh => hnd.1 (Or.inl hh)
      by_cases hy : y.1 = n <;> by_cases hx : x.1 = n
      · exact absurd (hy.trans hx.symm) hxy
      · simp [lookupField, hy, hx]
      · simp [lookupField, hy, hx]
      · simp [lookupField, hy, hx]
  | trans h1 h2 ih1 ih2 =>
      have hnd2 := ((h1.map Prod.fst).nodup_iff).mp hnd
      exact (ih1 hnd).trans (ih2 hnd2)

theorem countKey_perm (n : String) {fs1 fs2 : List (String × Json)} (h : fs1.Perm fs2) :
    countKey fs1 n = countKey fs2 n :=
  (h.filter _).length_eq

theorem decodeParams_perm (decl : List (String × RType)) {fs1 fs2 : List (String × Json)}
    (h : fs1.Perm fs2) (hnd : (fs1.map Prod.fst).Nodup) :
    decodeParams decl (Json.obj fs1) = decodeParams decl (Json.obj fs2) :=
  decodeParams_congrOn decl fs1 fs2 (fun d _ => countKey_perm d.1 h)
    (fun m _ _ => lookupField_perm m h hnd)

theorem decodeFields_error_of_badField {decl : List (String × RType)}
    {fs : List (String × Json)} {n : String} {t : RType}
    (hmem : (n, t) ∈ decl) (h : (lookupField fs n).bind (decodeVal t) = none) :
    ∃ e, decodeFields decl fs = Except.error e := by
  induction decl with
  | nil => exact absurd hmem (List.not_mem_nil _)
  | cons d rest ih =>
      obtain ⟨m, s⟩ := d
      rcases List.mem_cons.mp hmem with heq | hmem'
      · obtain ⟨hm, hs⟩ := Prod.mk.injEq .. ▸ heq
        subst hm
        subst hs
        cases hl : lookupField fs n with
        | none => exact ⟨"missing field " ++ n, by simp [decodeFields, hl]⟩
        | some v =>
            rw [hl] at h
            have hdv : decodeVal t v = none := h
            exact ⟨"invalid type for field " ++ n, by simp [decodeFields, hl, hdv]⟩
      · cases hl : lookupField fs m with
        | none => exact ⟨"missing field " ++ m, by simp [decodeFields, hl]⟩
        | some v =>
            cases hd : decodeVal s v with
            | none => exact ⟨"invalid type for field " ++ m, by simp [decodeFields, hl, hd]⟩
            | some rv =>
                obtain ⟨e, he⟩ := ih hmem'
                exact ⟨e, by simp [decodeFields, hl, hd, he]⟩

theorem decodeParams_error_of_badField {decl : List (String × RType)}
    {fs : List (String × Json)} {n : String} {t : RType}
    (hmem : (n, t) ∈ decl) (h : (lookupField fs n).bind (decodeVal t) = none) :
    ∃ e, decodeParams decl (Json.obj fs) = Except.error e := by
  simp only [decodeParams]
  split
  · exact ⟨_, rfl⟩
  · exact decodeFields_error_of_badField hmem h

theorem decodeRequest_error_of_missing (j : Json)
    (h : jsonLookup j "function_name" = none ∨ jsonLookup j "params" = none) :
    ∃ e, decodeRequest j = Except.error e := by
  cases j with
  | obj fs =>
      simp only [jsonLookup] at h
      simp only [decodeRequest]
      split
      · exact ⟨_, rfl⟩
      · cases hf : lookupField fs "function_name" with
        | none => exact ⟨_, rfl⟩
        | some v =>
            rcases h with h | h
            · exact absurd hf (h ▸ fun hh => Option.noConfusion hh)
            · cases v with
              | str s => exact ⟨"missing field params", by simp [hf, h]⟩
              | null => exact ⟨"invalid type for field function_name", by simp [hf]⟩
              | bool b => exact ⟨"invalid type for field function_name", by simp [hf]⟩
              | num n => exact ⟨"invalid type for field function_name", by simp [hf]⟩
              | arr xs => exact ⟨"invalid type for field function_name", by simp [hf]⟩
              | obj gs => exact ⟨"invalid type for field function_name", by simp [hf]⟩
  | null => exact ⟨_, rfl⟩
  | bool b => exact ⟨_, rfl⟩
  | num n => exact ⟨_, rfl⟩
  | str s => exact ⟨_, rfl⟩
  | arr xs => exact ⟨_, rfl⟩

theorem decodeFields_ok_spec : ∀ {decl : List (String × RType)}
    {fs : List (String × Json)} {args : List RVal},
    decodeFields decl fs = Except.ok args →
    args.length = decl.length ∧
    ∀ (i : Nat) (hi : i < decl.length) (hi' : i < args.length),
      ∃ v, lookupField fs (decl.get ⟨i, hi⟩).1 = some v ∧
        decodeVal (decl.get ⟨i, hi⟩).2 v = some (args.get ⟨i, hi'⟩) := by
  intro decl
  induction decl with
  | nil =>
      intro fs args h
      simp [decodeFields] at h
      subst h
      exact ⟨rfl, fun i hi _ => absurd hi (Nat.not_lt_zero i)⟩
  | cons d rest ih =>
      intro fs args h
      obtain ⟨m, t⟩ := d
      cases hl : lookupField fs m with
      | none => simp [decodeFields, hl] at h
      | some v =>
          cases hd : decodeVal t v with
          | none => simp [decodeFields, hl, hd] at h
          | some rv =>
              cases hr : decodeFields rest fs with
              | error e => simp [decodeFields, hl, hd, hr] at h
              | ok rvs =>
                  simp [decodeFields, hl, hd, hr] at h
                  subst h
                  obtain ⟨hlen, hget⟩ := ih hr
                  refine ⟨by simp [hlen], ?_⟩
                  intro i hi hi'
                  cases i with
                  | zero => exact ⟨v, hl, by simp [hd]⟩
                  | succ k =>
                      have h1 : k < rest.length := Nat.lt_of_succ_lt_succ (by simpa using hi)
                      have h2 : k < rvs.length := Nat.lt_of_succ_lt_succ (by simpa using hi')
                      exact hget k h1 h2

theorem decodeParams_append_unknown (decl : List (String × RType))
    (fs : List (String × Json)) (n : String) (v : Json)
    (h : n ∉ decl.map Prod.fst) :
    decodeParams decl (Json.obj (fs ++ [(n, v)])) = decodeParams decl (Json.obj fs) := by
  have hne : ∀ m t, (m, t) ∈ decl → m ≠ n := by
    intro m t hm heq
    exact h (heq ▸ List.mem_map_of_mem Prod.fst hm)
  refine decodeParams_congrOn decl _ fs ?_ ?_
  · intro d hd
    exact countKey_append_of_ne fs n d.1 v (hne d.1 d.2 hd)
  · intro m t hm
    exact lookupField_append_of_ne fs n m v (hne m t hm)

/-- C1, counterexample: for the hash adapter and the request
`function_name = "hash"` with an empty `params` object (so the params
decode fails on the missing `seed`), the process exits with code 1 and
writes no Response document to standard output — contradicting the
claim that it emits an error Response on standard output and exits with
code 0. -/
theorem c1_params_decode_failure_cex :
    (adapterMain hashAdapter (Input.json (Json.obj
        [("function_name", Json.str "hash"), ("params", Json.obj [])]))).exitCode = 1 ∧
    (adapterMain hashAdapter (Input.json (Json.obj
        [("function_name", Json.str "hash"), ("params", Json.obj [])]))).stdout = [] :=
  ⟨rfl, rfl⟩

/-- C1 (amended): for every request whose function name equals the
adapter's target name but whose params value fails to decode into the
typed Params record, the `?` on `serde_json::from_value` makes `main`
return `Err`: the process exits with code 1, prints a diagnostic
describing the decode failure to stderr, and emits no Response on
standard output. -/
theorem c1_params_decode_failure_fatal (A : Adapter) (j : Json) (req : Request) (e : String)
    (h1 : decodeRequest j = Except.ok req)
    (h2 : req.function_name = A.function_name)
    (h3 : decodeParams A.arguments req.params = Except.error e) :
    adapterMain A (Input.json j) =
      { exitCode := 1, stdout := [],
        stderr := some ("Failed to parse parameters: " ++ e) } := by
  simp [adapterMain, h1, h2, h3]

/-- C1 witness: the amended statement instantiated at the hash adapter
and the request with an empty params object. -/
theorem c1_params_decode_failure_fatal_witness :
    adapterMain hashAdapter (Input.json (Json.obj
        [("function_name", Json.str "hash"), ("params", Json.obj [])])) =
      { exitCode := 1, stdout := [],
        stderr := some ("Failed to parse parameters: " ++ "missing field seed") } :=
  c1_params_decode_failure_fatal hashAdapter
    (Json.obj [("function_name", Json.str "hash"), ("params", Json.obj [])])
    { function_name := "hash", params := Json.obj [] } "missing field seed" rfl rfl rfl

/-- C2, counterexample: a params object carrying all declared fields of
the hash adapter plus an extra undeclared field decodes successfully —
serde's derived `Deserialize` ignores unknown fields absent
`deny_unknown_fields` — contradicting the claim that an extra field is a
decode error. -/
theorem c2_extra_field_accepted_cex :
    decodeParams hashAdapter.arguments (Json.obj
        [("seed", Json.num 1), ("input", Json.arr []), ("extra", Json.num 0)]) =
      Except.ok [RVal.int 1, RVal.list []] := rfl

/-- C2 (amended): decoding params fails whenever a declared field is
missing, while an extra field not in the declared argument list is
ignored and does not affect the decode result. -/
theorem c2_missing_errors_extra_ignored :
    (∀ (decl : List (String × RType)) (fs : List (String × Json)) (n : String) (v : Json),
        n ∉ decl.map Prod.fst →
        decodeParams decl (Json.obj (fs ++ [(n, v)])) = decodeParams decl (Json.obj fs)) ∧
    (∀ (decl : List (String × RType)) (fs : List (String × Json)) (n : String) (t : RType),
        (n, t) ∈ decl → lookupField fs n = none →
        ∃ e, decodeParams decl (Json.obj fs) = Except.error e) := by
  constructor
  · exact decodeParams_append_unknown
  · intro decl fs n t hmem hmiss
    exact decodeParams_error_of_badField hmem (by rw [hmiss]; rfl)

/-- C2 witness: the amended statement instantiated at the hash adapter:
appending an undeclared `extra` field leaves the decode unchanged, and a
params object missing the declared `seed` field is a decode error. -/
theorem c2_missing_errors_extra_ignored_witness :
    decodeParams hashAdapter.arguments (Json.obj
        ([("seed", Json.num 1), ("input", Json.arr [])] ++ [("extra", Json.num 0)])) =
      decodeParams hashAdapter.arguments (Json.obj
        [("seed", Json.num 1), ("input", Json.arr [])]) ∧
    ∃ e, decodeParams hashAdapter.arguments (Json.obj [("input", Json.arr [])]) =
      Except.error e :=
  ⟨c2_missing_errors_extra_ignored.1 hashAdapter.arguments
      [("seed", Json.num 1), ("input", Json.arr [])] "extra" (Json.num 0) (by decide),
   c2_missing_errors_extra_ignored.2 hashAdapter.arguments
      [("input", Json.arr [])] "seed" RType.int (by decide) rfl⟩

/-- C3: for every well-formed request envelope whose function name
differs from the adapter's configured target name, the program writes
exactly the Response `status = "error"`, `data = null`,
`error_message = "Unsupported function"` to standard output and exits
with code 0, regardless of the contents of params (the conclusion is a
constant not depending on `req.params` or on `A.target`). -/
theorem c3_unsupported_function (A : Adapter) (j : Json) (req : Request)
    (h1 : decodeRequest j = Except.ok req)
    (h2 : req.function_name ≠ A.function_name) :
    adapterMain A (Input.json j) =
      { exitCode := 0,
        stdout := [{ status := "error", data := none,
                     error_message := some "Unsupported function" }],
        stderr := none } := by
  simp [adapterMain, h1, h2]

/-- C3 witness: the statement instantiated at the hash adapter and the
request naming the unsupported function `nope`. -/
theorem c3_unsupported_function_witness :
    adapterMain hashAdapter (Input.json (Json.obj
        [("function_name", Json.str "nope"), ("params", Json.obj [])])) =
      { exitCode := 0,
        stdout := [{ status := "error", data := none,
                     error_message := some "Unsupported function" }],
        stderr := none } :=
  c3_unsupported_function hashAdapter
    (Json.obj [("function_name", Json.str "nope"), ("params", Json.obj [])])
    { function_name := "nope", params := Json.obj [] } rfl (by decide)

/-- C4: for every input that is not a valid JSON document, or that is
valid JSON lacking a `function_name` field or lacking a `params` field,
the process exits with a non-zero code, prints a diagnostic to stderr,
and emits no Response document on standard output. -/
theorem c4_envelope_fatal (A : Adapter) (inp : Input)
    (h : inp = Input.notJson ∨
      ∃ j, inp = Input.json j ∧
        (jsonLookup j "function_name" = none ∨ jsonLookup j "params" = none)) :
    (adapterMain A inp).exitCode ≠ 0 ∧ (adapterMain A inp).stdout = [] ∧
      (adapterMain A inp).stderr ≠ none := by
  rcases h with h | ⟨j, rfl, hj⟩
  · subst h
    exact ⟨by simp [adapterMain], rfl, by simp [adapterMain]⟩
  · obtain ⟨e, he⟩ := decodeRequest_error_of_missing j hj
    refine ⟨?_, ?_, ?_⟩ <;> simp [adapterMain, he]

/-- C4 witness: the statement instantiated at the hash adapter and the
valid-JSON input that is an empty object, lacking both fields. -/
theorem c4_envelope_fatal_witness :
    (adapterMain hashAdapter (Input.json (Json.obj []))).exitCode ≠ 0 ∧
    (adapterMain hashAdapter (Input.json (Json.obj []))).stdout = [] ∧
    (adapterMain hashAdapter (Input.json (Json.obj []))).stderr ≠ none :=
  c4_envelope_fatal hashAdapter (Input.json (Json.obj []))
    (Or.inr ⟨Json.obj [], rfl, Or.inl rfl⟩)

/-- C5: for every request whose function name matches the target and
whose params decode into the typed Params record, the emitted Response
has `status = "success"`, `data` equal to the target function applied to
the decoded arguments, `error_message = null`, and the process exits
with code 0. -/
theorem c5_success_roundtrip (A : Adapter) (j : Json) (req : Request) (args : List RVal)
    (h1 : decodeRequest j = Except.ok req)
    (h2 : req.function_name = A.function_name)
    (h3 : decodeParams A.arguments req.params = Except.ok args) :
    adapterMain A (Input.json j) =
      { exitCode := 0,
        stdout := [{ status := "success", data := some (A.target args),
                     error_message := none }],
        stderr := none } := by
  simp [adapterMain, h1, h2, h3]

/-- C5 witness: the statement instantiated at the hash adapter and the
request `seed = 42`, `input = [1,2,3]`. -/
theorem c5_success_roundtrip_witness :
    adapterMain hashAdapter (Input.json (Json.obj
        [("function_name", Json.str "hash"),
         ("params", Json.obj [("seed", Json.num 42),
            ("input", Json.arr [Json.num 1, Json.num 2, Json.num 3])])])) =
      { exitCode := 0,
        stdout := [{ status := "success",
                     data := some (hashAdapter.target
                       [RVal.int 42, RVal.list [RVal.int 1, RVal.int 2, RVal.int 3]]),
                     error_message := none }],
        stderr := none } :=
  c5_success_roundtrip hashAdapter
    (Json.obj [("function_name", Json.str "hash"),
      ("params", Json.obj [("seed", Json.num 42),
        ("input", Json.arr [Json.num 1, Json.num 2, Json.num 3])])])
    { function_name := "hash",
      params := Json.obj [("seed", Json.num 42),
        ("input", Json.arr [Json.num 1, Json.num 2, Json.num 3])] }
    [RVal.int 42, RVal.list [RVal.int 1, RVal.int 2, RVal.int 3]] rfl rfl rfl

/-- C6: every Response the program emits has exactly one of `data` and
`error_message` non-null, consistently with `status`: a success carries
data and no error message, and an error carries an error message and no
data. -/
theorem c6_exactly_one_of (A : Adapter) (inp : Input) (r : Response)
    (h : r ∈ (adapterMain A inp).stdout) :
    (r.status = "success" ∧ r.data ≠ none ∧ r.error_message = none) ∨
    (r.status = "error" ∧ r.data = none ∧ r.error_message ≠ none) := by
  cases inp with
  | notUtf8 => simp [adapterMain] at h
  | notJson => simp [adapterMain] at h
  | json j =>
      cases hd : decodeRequest j with
      | error e => simp [adapterMain, hd] at h
      | ok req =>
          by_cases hn : req.function_name = A.function_name
          · cases hp : decodeParams A.arguments req.params with
            | error e => simp [adapterMain, hd, hn, hp] at h
            | ok args =>
                simp [adapterMain, hd, hn, hp] at h
                subst h
                exact Or.inl ⟨rfl, by simp, rfl⟩
          · simp [adapterMain, hd, hn] at h
            subst h
            exact Or.inr ⟨rfl, rfl, by simp⟩

/-- C6 witness: the statement instantiated at the unsupported-function
Response actually emitted by the hash adapter for a `nope` request. -/
theorem c6_exactly_one_of_witness :
    (({ status := "error", data := none,
        error_message := some "Unsupported function" } : Response).status = "success" ∧
      ({ status := "error", data := none,
         error_message := some "Unsupported function" } : Response).data ≠ none ∧
      ({ status := "error", data := none,
         error_message := some "Unsupported function" } : Response).error_message = none) ∨
    (({ status := "error", data := none,
        error_message := some "Unsupported function" } : Response).status = "error" ∧
      ({ status := "error", data := none,
         error_message := some "Unsupported function" } : Response).data = none ∧
      ({ status := "error", data := none,
         error_message := some "Unsupported function" } : Response).error_message ≠ none) :=
  c6_exactly_one_of hashAdapter
    (Input.json (Json.obj [("function_name", Json.str "nope"), ("params", Json.null)]))
    { status := "error", data := none, error_message := some "Unsupported function" }
    (List.Mem.head _)

/-- C7: for every params object in which a declared field is absent, or
present with a value that does not have the declared type,
deserialization into the Params record fails with an error rather than
silently coercing the value or filling in a default. -/
theorem c7_strict_decode (decl : List (String × RType)) (fs : List (String × Json))
    (n : String) (t : RType) (hmem : (n, t) ∈ decl) :
    (lookupField fs n = none → ∃ e, decodeParams decl (Json.obj fs) = Except.error e) ∧
    (∀ v, lookupField fs n = some v → decodeVal t v = none →
      ∃ e, decodeParams decl (Json.obj fs) = Except.error e) := by
  constructor
  · intro hmiss
    exact decodeParams_error_of_badField hmem (by rw [hmiss]; rfl)
  · intro v hv hbad
    exact decodeParams_error_of_badField hmem (by rw [hv]; exact hbad)

/-- C7 witness: the statement instantiated at the hash adapter: a params
object missing `seed` fails, and a params object whose `seed` is a
string instead of an integer fails. -/
theorem c7_strict_decode_witness :
    (∃ e, decodeParams hashAdapter.arguments
        (Json.obj [("input", Json.arr [])]) = Except.error e) ∧
    (∃ e, decodeParams hashAdapter.arguments
        (Json.obj [("seed", Json.str "forty-two"), ("input", Json.arr [])]) =
      Except.error e) :=
  ⟨(c7_strict_decode hashAdapter.arguments [("input", Json.arr [])]
      "seed" RType.int (by decide)).1 rfl,
   (c7_strict_decode hashAdapter.arguments
      [("seed", Json.str "forty-two"), ("input", Json.arr [])]
      "seed" RType.int (by decide)).2 (Json.str "forty-two") rfl rfl⟩

/-- C8: the target function's arguments are the decoded values of the
declared parameters in declared positional order — the i-th argument is
decoded, at the i-th declared type, from the field looked up by the i-th
declared name — and the params decode result is invariant under
permuting the fields of the params JSON object. -/
theorem c8_positional_args (A : Adapter) (fs1 fs2 : List (String × Json))
    (hperm : fs1.Perm fs2) (hnd : (fs1.map Prod.fst).Nodup) :
    decodeParams A.arguments (Json.obj fs1) = decodeParams A.arguments (Json.obj fs2) ∧
    ∀ args, decodeParams A.arguments (Json.obj fs1) = Except.ok args →
      args.length = A.arguments.length ∧
      ∀ (i : Nat) (hi : i < A.arguments.length) (hi' : i < args.length),
        ∃ v, lookupField fs1 (A.arguments.get ⟨i, hi⟩).1 = some v ∧
          decodeVal (A.arguments.get ⟨i, hi⟩).2 v = some (args.get ⟨i, hi'⟩) := by
  refine ⟨decodeParams_perm A.arguments hperm hnd, ?_⟩
  intro args ha
  simp only [decodeParams] at ha
  split at ha
  · exact Except.noConfusion ha
  · exact decodeFields_ok_spec ha

/-- C8 witness: the statement instantiated at the hash adapter with the
params fields given in the two possible orders. -/
theorem c8_positional_args_witness :
    decodeParams hashAdapter.arguments (Json.obj
        [("seed", Json.num 7), ("input", Json.arr [Json.num 5])]) =
      decodeParams hashAdapter.arguments (Json.obj
        [("input", Json.arr [Json.num 5]), ("seed", Json.num 7)]) ∧
    [RVal.int 7, RVal.list [RVal.int 5]].length = hashAdapter.arguments.length :=
  have h := c8_positional_args hashAdapter
    [("seed", Json.num 7), ("input", Json.arr [Json.num 5])]
    [("input", Json.arr [Json.num 5]), ("seed", Json.num 7)]
    (List.Perm.swap _ _ _) (by decide)
  ⟨h.1, (h.2 [RVal.int 7, RVal.list [RVal.int 5]] rfl).1⟩

/-- C9, counterexample: for a request whose envelope parses successfully
(`function_name = "hash"`, params with a wrong-typed `seed`), the
program writes zero Response documents to standard output — refuting the
claim that it writes exactly one whenever the top-level envelope parses
successfully. -/
theorem c9_no_response_cex :
    decodeRequest (Json.obj [("function_name", Json.str "hash"),
        ("params", Json.obj [("seed", Json.str "x"), ("input", Json.arr [])])]) =
      Except.ok { function_name := "hash"
                  params := Json.obj [("seed", Json.str "x"), ("input", Json.arr [])] } ∧
    (adapterMain hashAdapter (Input.json (Json.obj [("function_name", Json.str "hash"),
        ("params", Json.obj [("seed", Json.str "x"),
          ("input", Json.arr [])])]))).stdout.length = 0 :=
  ⟨rfl, rfl⟩

/-- C9 (amended): the program writes at most one Response document to
standard output per process invocation, and writes exactly one whenever
the top-level envelope parses successfully and either the function name
mismatches or the params decode succeeds; on a params decode failure it
writes none. -/
theorem c9_at_most_one_response :
    (∀ (A : Adapter) (inp : Input), (adapterMain A inp).stdout.length ≤ 1) ∧
    (∀ (A : Adapter) (j : Json) (req : Request),
      decodeRequest j = Except.ok req →
      (req.function_name ≠ A.function_name ∨
        ∃ args, decodeParams A.arguments req.params = Except.ok args) →
      (adapterMain A (Input.json j)).stdout.length = 1) := by
  constructor
  · intro A inp
    cases inp with
    | notUtf8 => simp [adapterMain]
    | notJson => simp [adapterMain]
    | json j =>
        cases hd : decodeRequest j with
        | error e => simp [adapterMain, hd]
        | ok req =>
            by_cases hn : req.function_name = A.function_name
            · cases hp : decodeParams A.arguments req.params with
              | error e => simp [adapterMain, hd, hn, hp]
              | ok args => simp [adapterMain, hd, hn, hp]
            · simp [adapterMain, hd, hn]
  · intro A j req hd hcase
    rcases hcase with hn | ⟨args, hp⟩
    · simp [adapterMain, hd, hn]
    · by_cases hn : req.function_name = A.function_name
      · simp [adapterMain, hd, hn, hp]
      · simp [adapterMain, hd, hn]

/-- C9 witness: the amended statement instantiated at a malformed-JSON
input and at the unsupported-function request `nope`. -/
theorem c9_at_most_one_response_witness :
    (adapterMain hashAdapter Input.notJson).stdout.length ≤ 1 ∧
    (adapterMain hashAdapter (Input.json (Json.obj
        [("function_name", Json.str "nope"), ("params", Json.null)]))).stdout.length = 1 :=
  ⟨c9_at_most_one_response.1 hashAdapter Input.notJson,
   c9_at_most_one_response.2 hashAdapter
     (Json.obj [("function_name", Json.str "nope"), ("params", Json.null)])
     { function_name := "nope", params := Json.null } rfl (Or.inl (by decide))⟩

/-- C10: when the standard-input bytes are not valid UTF-8, the read of
standard input fails before any JSON parsing is attempted, so the
process exits with a non-zero code, prints a diagnostic to stderr, and
emits no Response document on standard output. -/
theorem c10_invalid_utf8_fatal (A : Adapter) :
    (adapterMain A Input.notUtf8).exitCode ≠ 0 ∧
    (adapterMain A Input.notUtf8).stdout = [] ∧
    (adapterMain A Input.notUtf8).stderr ≠ none := by
  refine ⟨?_, rfl, ?_⟩ <;> simp [adapterMain]
